import Mathlib

/-!
# Vespa: file size tag check, the document sub-database test double, numeric search helpers

Shallow embedding of

* `search::NumericAttribute::Equal<T>` and `search::NumericAttribute::Range<T>`
  (searchlib/src/vespa/searchlib/attribute/numericbase.h) at the fixed-width integer types;
  the instantiations at `float` and `double` are not covered,

* `search::FileSizeCalculator::extractFileSize`
  (searchlib/src/vespa/searchlib/util/filesizecalculator.cpp),
* `proton::test::DummyDocumentSubDb`
  (searchcore/src/vespa/searchcore/proton/test/dummy_document_sub_db.h), the test double
  that implements the interface `proton::IDocumentSubDB`
  (searchcore/src/vespa/searchcore/proton/server/idocumentsubdb.h).

Unsigned 64-bit quantities (`uint64_t`, `size_t`, `SerialNum`) are natural numbers; the one
signed-to-unsigned conversion of the code is written out with `% 2^64`.
-/

set_option linter.unusedVariables false

namespace vespalib

/-- Modelled from the spec: `vespalib::GenericHeader::Tag` (vespalib/data/fileheader.h is not
among the sources). A stored tag, reduced to its name and the signed 64-bit payload that
`asInteger()` hands out. -/
structure Tag where
  name : String
  iVal : Int
deriving DecidableEq

/-- Integer payload of a tag (`int64_t asInteger() const`). -/
def Tag.asInteger (t : Tag) : Int := t.iVal

/-- Modelled from the spec: `vespalib::GenericHeader` (vespalib/data/fileheader.h is not among
the sources). A header is the collection of its stored tags, looked up by name. -/
structure GenericHeader where
  tags : List Tag
deriving DecidableEq

/-- The tag handed out for a name that is not stored. -/
def emptyTag : Tag := ⟨"", 0⟩

/-- Whether a tag of the given name is stored (`bool hasTag(const string &key) const`). -/
def GenericHeader.hasTag (header : GenericHeader) (key : String) : Bool :=
  header.tags.any (fun t => decide (t.name = key))

/-- The stored tag of the given name, the empty tag when there is none
(`const Tag &getTag(const string &key) const`). -/
def GenericHeader.getTag (header : GenericHeader) (key : String) : Tag :=
  match header.tags.find? (fun t => decide (t.name = key)) with
  | some t => t
  | none => emptyTag

end vespalib

namespace search

open vespalib

/-- Conversion of an `int64_t` to `uint64_t`, as in `uint64_t x = tag.asInteger()`. -/
def toUInt64 (v : Int) : Nat := (v % 2 ^ 64).toNat

/-- Name of the size tag: `const vespalib::string fileBitSizeTag = "fileBitSize"`. -/
def fileBitSizeTag : String := "fileBitSize"

/-- Source: `bool byteAligned(uint64_t bitSize) { return ((bitSize % 8) == 0); }`. -/
def byteAligned (bitSize : Nat) : Bool := bitSize % 8 == 0

namespace FileSizeCalculator

/-- The value the code reads into `uint64_t fileBitSize`:
`header.getTag(fileBitSizeTag).asInteger()`. -/
def fileBitSizeOf (header : GenericHeader) : Nat :=
  toUInt64 (header.getTag fileBitSizeTag).asInteger

/-- Source: `FileSizeCalculator::extractFileSize(header, headerLen, fileName, fileSize)`.
The in/out parameter `size_t &fileSize` is the last argument on the way in and the second
component of the result on the way out; the first component is the returned `bool`.
`fileName` is only used for the log lines, which are not modelled. -/
def extractFileSize (header : GenericHeader) (headerLen : Nat) (fileName : String)
    (fileSize : Nat) : Bool × Nat :=
  if !header.hasTag fileBitSizeTag then
    (true, fileSize)
  else
    let fileBitSize := toUInt64 (header.getTag fileBitSizeTag).asInteger
    let fileByteSize := fileBitSize / 8
    if !byteAligned fileBitSize then
      (false, fileSize)
    else if fileByteSize < headerLen then
      (false, fileSize)
    else if fileByteSize > fileSize then
      (false, fileSize)
    else
      (true, fileByteSize)

/-- A header whose only tag is `fileBitSize` with the given payload. -/
def headerWithBitSize (bits : Int) : GenericHeader := ⟨[⟨fileBitSizeTag, bits⟩]⟩

end FileSizeCalculator

end search

namespace proton

/-- Serial numbers are unsigned 64-bit counters (`search::SerialNum`). -/
abbrev SerialNum := Nat

/-- A reference to a heap object that the sub-database does not look into. -/
structure ObjRef where
  addr : Nat
deriving DecidableEq

/-- A `std::shared_ptr` or `std::unique_ptr`: `none` is the empty (null) pointer, which is what
a default-constructed `SP()` or `UP()` holds. -/
abbrev SP := Option ObjRef

/-- Modelled from the spec: `searchcorespi::IFlushTarget` (searchcorespi/flush/iflushtarget.h is
not among the sources). A flush target, reduced to its name and the flushed serial it reports. -/
structure IFlushTarget where
  name : String
  flushedSerialNum : SerialNum
deriving DecidableEq

/-- The collaborator types which `IDocumentSubDB` only declares (`class DocumentDBConfig;`,
`class ReconfigParams;` and so on) and whose values the operations receive as arguments. -/
structure Collaborators where
  DocumentDBConfig : Type
  SessionManager : Type
  ReconfigParams : Type
  Schema : Type
  DocumentSubDbInitializerResult : Type
  IReprocessingTask : Type

/-- Modelled from the spec: `proton::DocumentMetaStoreContext` (its header is not among the
sources), reduced to the bucket database it is constructed from. -/
structure DocumentMetaStoreContext where
  bucketDB : SP
deriving DecidableEq

/-- Modelled from the spec: `proton::ExecutorThreadingService` (its header is not among the
sources), reduced to the thread count it is constructed with. -/
structure ExecutorThreadingService where
  threads : Nat
deriving DecidableEq

namespace test

/-- Source: the data members of `struct DummyDocumentSubDb : public IDocumentSubDB`. -/
structure DummyDocumentSubDb where
  _subDbId : Nat
  _metaStoreCtx : DocumentMetaStoreContext
  _summaryManager : SP
  _indexManager : SP
  _summaryAdapter : SP
  _indexWriter : SP
  _writeService : ExecutorThreadingService
deriving DecidableEq

namespace DummyDocumentSubDb

/-- Source: the constructor `DummyDocumentSubDb(std::shared_ptr<BucketDBOwner> bucketDB,
uint32_t subDbId)` with its member initialiser list. -/
def new (bucketDB : SP) (subDbId : Nat) : DummyDocumentSubDb :=
  { _subDbId := subDbId
    _metaStoreCtx := ⟨bucketDB⟩
    _summaryManager := none
    _indexManager := none
    _summaryAdapter := none
    _indexWriter := none
    _writeService := ⟨1⟩ }

/-- Source: `void close() override { }`. -/
def close (self : DummyDocumentSubDb) : DummyDocumentSubDb := self

/-- Source: `uint32_t getSubDbId() const override { return _subDbId; }`. -/
def getSubDbId (self : DummyDocumentSubDb) : Nat := self._subDbId

/-- Source: `vespalib::string getName() const override { return "dummysubdb"; }`. -/
def getName (self : DummyDocumentSubDb) : String := "dummysubdb"

/-- Source: `void setup(const DocumentSubDbInitializerResult &) override {}`. -/
def setup {C : Collaborators} (initResult : C.DocumentSubDbInitializerResult)
    (self : DummyDocumentSubDb) : DummyDocumentSubDb := self

/-- Source: `void initViews(const DocumentDBConfig &, const SessionManager::SP &) override {}`. -/
def initViews {C : Collaborators} (configSnapshot : C.DocumentDBConfig)
    (sessionManager : Option C.SessionManager) (self : DummyDocumentSubDb) :
    DummyDocumentSubDb := self

/-- Source: `applyConfig(const DocumentDBConfig &, const DocumentDBConfig &, SerialNum,
const ReconfigParams &)`, whose body is `return IReprocessingTask::List();`. The result is the
returned task list together with the object afterwards. -/
def applyConfig {C : Collaborators} (newConfigSnapshot oldConfigSnapshot : C.DocumentDBConfig)
    (serialNum : SerialNum) (params : C.ReconfigParams) (self : DummyDocumentSubDb) :
    List C.IReprocessingTask × DummyDocumentSubDb := ([], self)

/-- Source: `ISearchHandler::SP getSearchView() const override { return ISearchHandler::SP(); }`. -/
def getSearchView (self : DummyDocumentSubDb) : SP := none

/-- Source: `IFeedView::SP getFeedView() const override { return IFeedView::SP(); }`. -/
def getFeedView (self : DummyDocumentSubDb) : SP := none

/-- Source: `void clearViews() override {}`. -/
def clearViews (self : DummyDocumentSubDb) : DummyDocumentSubDb := self

/-- Source: `const ISummaryManager::SP &getSummaryManager() const` returns `_summaryManager`. -/
def getSummaryManager (self : DummyDocumentSubDb) : SP := self._summaryManager

/-- Source: `getAttributeManager() const` returns `proton::IAttributeManager::SP()`. -/
def getAttributeManager (self : DummyDocumentSubDb) : SP := none

/-- Source: `const IIndexManager::SP &getIndexManager() const` returns `_indexManager`. -/
def getIndexManager (self : DummyDocumentSubDb) : SP := self._indexManager

/-- Source: `const ISummaryAdapter::SP &getSummaryAdapter() const` returns `_summaryAdapter`. -/
def getSummaryAdapter (self : DummyDocumentSubDb) : SP := self._summaryAdapter

/-- Source: `const IIndexWriter::SP &getIndexWriter() const` returns `_indexWriter`. -/
def getIndexWriter (self : DummyDocumentSubDb) : SP := self._indexWriter

/-- Source: `IDocumentMetaStoreContext &getDocumentMetaStoreContext()` returns `_metaStoreCtx`. -/
def getDocumentMetaStoreContext (self : DummyDocumentSubDb) : DocumentMetaStoreContext :=
  self._metaStoreCtx

/-- Source: `IFlushTarget::List getFlushTargets() override { return IFlushTarget::List(); }`. -/
def getFlushTargets (self : DummyDocumentSubDb) : List IFlushTarget := []

/-- Source: `size_t getNumDocs() const override { return 0; }`. -/
def getNumDocs (self : DummyDocumentSubDb) : Nat := 0

/-- Source: `size_t getNumActiveDocs() const override { return 0; }`. -/
def getNumActiveDocs (self : DummyDocumentSubDb) : Nat := 0

/-- Source: `void onReplayDone() override {}`. -/
def onReplayDone (self : DummyDocumentSubDb) : DummyDocumentSubDb := self

/-- Source: `void onReprocessDone(SerialNum) override { }`. -/
def onReprocessDone (serialNum : SerialNum) (self : DummyDocumentSubDb) :
    DummyDocumentSubDb := self

/-- Source: `SerialNum getOldestFlushedSerial() override { return 0; }`. -/
def getOldestFlushedSerial (self : DummyDocumentSubDb) : SerialNum := 0

/-- Source: `SerialNum getNewestFlushedSerial() override { return 0; }`. -/
def getNewestFlushedSerial (self : DummyDocumentSubDb) : SerialNum := 0

/-- Source: `void wipeHistory(SerialNum, const Schema &, const Schema &) override { }`. -/
def wipeHistory {C : Collaborators} (wipeSerial : SerialNum)
    (newHistorySchema wipeSchema : C.Schema) (self : DummyDocumentSubDb) :
    DummyDocumentSubDb := self

/-- Source: `void setIndexSchema(const Schema::SP &, const Schema::SP &) override { }`. -/
def setIndexSchema {C : Collaborators} (schema fusionSchema : Option C.Schema)
    (self : DummyDocumentSubDb) : DummyDocumentSubDb := self

/-- Source: `bool hasDocument(const document::DocumentId &) override { return false; }`. -/
def hasDocument {DocumentId : Type} (id : DocumentId) (self : DummyDocumentSubDb) : Bool :=
  false

/-- Source: `getDocumentRetriever()` returns `IDocumentRetriever::UP()`. -/
def getDocumentRetriever (self : DummyDocumentSubDb) : SP := none

end DummyDocumentSubDb

/-- A call of one of the state-changing operations of `IDocumentSubDB` (its `void` member
functions and `applyConfig`), with the arguments of the call. -/
inductive Op (C : Collaborators) where
  | setup (initResult : C.DocumentSubDbInitializerResult)
  | initViews (configSnapshot : C.DocumentDBConfig) (sessionManager : Option C.SessionManager)
  | applyConfig (newConfigSnapshot oldConfigSnapshot : C.DocumentDBConfig)
      (serialNum : SerialNum) (params : C.ReconfigParams)
  | clearViews
  | onReplayDone
  | onReprocessDone (serialNum : SerialNum)
  | wipeHistory (wipeSerial : SerialNum) (newHistorySchema wipeSchema : C.Schema)
  | setIndexSchema (schema fusionSchema : Option C.Schema)
  | close

/-- Whether the call is a call of `initViews`. -/
def Op.isInitViews {C : Collaborators} : Op C → Bool
  | .initViews _ _ => true
  | _ => false

/-- The object after one call: virtual dispatch of the call to the member function of
`DummyDocumentSubDb`; the task list that `applyConfig` returns goes to the caller. -/
def step {C : Collaborators} (op : Op C) (self : DummyDocumentSubDb) : DummyDocumentSubDb :=
  match op with
  | .setup initResult => DummyDocumentSubDb.setup (C := C) initResult self
  | .initViews configSnapshot sessionManager =>
      DummyDocumentSubDb.initViews (C := C) configSnapshot sessionManager self
  | .applyConfig newConfigSnapshot oldConfigSnapshot serialNum params =>
      (DummyDocumentSubDb.applyConfig (C := C) newConfigSnapshot oldConfigSnapshot serialNum
        params self).2
  | .clearViews => DummyDocumentSubDb.clearViews self
  | .onReplayDone => DummyDocumentSubDb.onReplayDone self
  | .onReprocessDone serialNum => DummyDocumentSubDb.onReprocessDone serialNum self
  | .wipeHistory wipeSerial newHistorySchema wipeSchema =>
      DummyDocumentSubDb.wipeHistory (C := C) wipeSerial newHistorySchema wipeSchema self
  | .setIndexSchema schema fusionSchema =>
      DummyDocumentSubDb.setIndexSchema (C := C) schema fusionSchema self
  | .close => DummyDocumentSubDb.close self

/-- The object after a sequence of calls, made in the order of the list. -/
def run {C : Collaborators} : List (Op C) → DummyDocumentSubDb → DummyDocumentSubDb
  | [], self => self
  | op :: ops, self => run ops (step op self)

/-- Collaborator types with a single value each, for concrete runs. -/
def unitCollaborators : Collaborators := ⟨Unit, Unit, Unit, Unit, Unit, Unit⟩

end test

/-- Modelled from the spec: the aggregate of section 4.1, "the minimum, across all registered
flush targets" of the flushed serials they report. The sub-databases that compute it from
their targets are not among the sources (only the interface declaration and the test double
are). With no target registered the value is 0, the serial that means "never written". -/
def oldestFlushedSerial : List IFlushTarget → SerialNum
  | [] => 0
  | t :: ts => ts.foldl (fun acc x => min acc x.flushedSerialNum) t.flushedSerialNum

end proton

namespace search

/-- The fixed-width integer types of C++ that the templates below are instantiated with. -/
inductive IntType where
  | int8_t
  | int16_t
  | int32_t
  | int64_t
  | uint8_t
  | uint16_t
  | uint32_t
  | uint64_t
deriving DecidableEq

namespace IntType

/-- Whether the type is signed (`std::numeric_limits<T>::is_signed`). -/
def isSigned : IntType → Bool
  | int8_t | int16_t | int32_t | int64_t => true
  | uint8_t | uint16_t | uint32_t | uint64_t => false

/-- The value of `std::numeric_limits<T>::min()`. -/
def numMin : IntType → Int
  | int8_t => -128
  | int16_t => -32768
  | int32_t => -2147483648
  | int64_t => -9223372036854775808
  | uint8_t | uint16_t | uint32_t | uint64_t => 0

/-- The value of `std::numeric_limits<T>::max()`. -/
def numMax : IntType → Int
  | int8_t => 127
  | int16_t => 32767
  | int32_t => 2147483647
  | int64_t => 9223372036854775807
  | uint8_t => 255
  | uint16_t => 65535
  | uint32_t => 4294967295
  | uint64_t => 18446744073709551615

/-- The integer is a value of the type. -/
def inRange (T : IntType) (x : Int) : Prop := T.numMin ≤ x ∧ x ≤ T.numMax

instance (T : IntType) (x : Int) : Decidable (T.inRange x) := by
  unfold inRange
  exact inferInstance

/-- Conversion of an integer to the type (`static_cast<T>(x)`, and the store of a computed
value into a `T`): the value of the type that is congruent to `x` modulo the number of values
of the type. -/
def wrap (T : IntType) (x : Int) : Int :=
  (x - T.numMin) % (T.numMax - T.numMin + 1) + T.numMin

/-- Integer promotion: operands narrower than `int` are computed with as `int`. -/
def promote : IntType → IntType
  | int8_t | int16_t | uint8_t | uint16_t => int32_t
  | T => T

/-- The common type of a binary operator after the usual arithmetic conversions, with
`int` of 32 and `long` of 64 bits. -/
def common (A B : IntType) : IntType :=
  match A.promote, B.promote with
  | uint64_t, _ => uint64_t
  | _, uint64_t => uint64_t
  | int64_t, _ => int64_t
  | _, int64_t => int64_t
  | uint32_t, _ => uint32_t
  | _, uint32_t => uint32_t
  | _, _ => int32_t

/-- The comparison `a <= b` of C++ for `a` of type `A` and `b` of type `B`: both operands are
converted to the common type and compared there. -/
def leConv (A B : IntType) (a b : Int) : Bool :=
  decide ((common A B).wrap a ≤ (common A B).wrap b)

end IntType

/-- Modelled from the spec: `search::Range<T>` (searchlib/common/range.h is not among the
sources), reduced to its two bounds. `Int64Range` is this type at `int64_t`. -/
structure Range where
  lower : Int
  upper : Int
deriving DecidableEq

/-- Modelled from the spec: `QueryTermSimple::RangeResult<T>` (querytermsimple.h is not among
the sources): the bounds parsed from the term, whether parsing succeeded, and whether the
bounds were adjusted to the limits of `T`. -/
structure RangeResult where
  low : Int
  high : Int
  valid : Bool
  adjusted : Bool
deriving DecidableEq

/-- Modelled from the spec: `RangeResult<T>::isEqual()`, read as `low == high`. -/
def RangeResult.isEqual (res : RangeResult) : Bool := decide (res.low = res.high)

/-- Modelled from the spec: `search::QueryTermSimple` (querytermsimple.h is not among the
sources), reduced to what the two constructors below ask of it: `getRange<T>()`,
`getRangeLimit()` and `getMaxPerGroup()`. -/
structure QueryTermSimple where
  getRange : IntType → RangeResult
  getRangeLimit : Int
  getMaxPerGroup : Nat

namespace NumericAttribute

/-- Source: the data members of `template<typename T> class Equal`. -/
structure Equal where
  _value : Int
  _valid : Bool
deriving DecidableEq

namespace Equal

/-- Source: the constructor `Equal(QueryTermSimple &queryTerm, bool avoidUndefinedInRange)`. -/
def new (T : IntType) (queryTerm : QueryTermSimple) (avoidUndefinedInRange : Bool) : Equal :=
  let res := queryTerm.getRange T
  { _valid := res.valid && res.isEqual && !res.adjusted
    _value := res.high }

/-- Source: `bool isValid() const { return _valid; }`. -/
def isValid (self : Equal) : Bool := self._valid

/-- Source: `bool match(T v) const { return v == _value; }`. -/
def «match» (self : Equal) (v : Int) : Bool := decide (v = self._value)

/-- Source: `Int64Range getRange() const`, the point range at `static_cast<int64_t>(_value)`. -/
def getRange (self : Equal) : search.Range :=
  ⟨IntType.int64_t.wrap self._value, IntType.int64_t.wrap self._value⟩

end Equal

/-- Source: the data members of `template<typename T> class Range`. -/
structure Range where
  _low : Int
  _high : Int
  _valid : Bool
  _limit : Int
  _max_per_group : Nat
deriving DecidableEq

namespace Range

/-- Source: the constructor `Range(const QueryTermSimple & queryTerm, bool
avoidUndefinedInRange)`. The statement `_low += 1` computes the sum in the promoted type and
stores it back into a `T`. -/
def new (T : IntType) (queryTerm : QueryTermSimple) (avoidUndefinedInRange : Bool) : Range :=
  let res := queryTerm.getRange T
  let _valid := if res.isEqual then (res.valid && !res.adjusted) else res.valid
  let _low := res.low
  let _high := res.high
  let _limit := queryTerm.getRangeLimit
  let _max_per_group := queryTerm.getMaxPerGroup
  if _valid && avoidUndefinedInRange && decide (_low = T.numMin) then
    { _low := T.wrap (_low + 1), _high := _high, _valid := _valid, _limit := _limit,
      _max_per_group := _max_per_group }
  else
    { _low := _low, _high := _high, _valid := _valid, _limit := _limit,
      _max_per_group := _max_per_group }

/-- Source: `Int64Range getRange() const`, both bounds through `static_cast<int64_t>`. -/
def getRange (self : Range) : search.Range :=
  ⟨IntType.int64_t.wrap self._low, IntType.int64_t.wrap self._high⟩

/-- Source: `bool isValid() const { return _valid; }`. -/
def isValid (self : Range) : Bool := self._valid

/-- Source: `bool match(T v) const { return (_low <= v) && (v <= _high); }`. All three operands
have type `T`, so promotion keeps their values and the comparisons are those of the integers. -/
def «match» (self : Range) (v : Int) : Bool := decide (self._low ≤ v) && decide (v ≤ self._high)

/-- Source: `int getRangeLimit() const { return _limit; }`. -/
def getRangeLimit (self : Range) : Int := self._limit

/-- Source: `size_t getMaxPerGroup() const { return _max_per_group; }`. -/
def getMaxPerGroup (self : Range) : Nat := self._max_per_group

/-- Source: `template <typename BaseType> search::Range<BaseType> cappedRange(bool isFloat,
bool isUnsigned)` of `Range<T>`, for integer `T` and `BaseType`. `numMin` and `numMax` are
`BaseType` values; `-numMax` is computed in the promoted type; `_low` and `_high` are `T`
values, so each comparison converts to the common type of `T` and `BaseType`. -/
def cappedRange (T BaseType : IntType) (self : Range) (isFloat isUnsigned : Bool) :
    search.Range :=
  let low := BaseType.wrap self._low
  let high := BaseType.wrap self._high
  let numMin := BaseType.numMin
  let numMax := BaseType.numMax
  let low :=
    if isFloat then
      if IntType.leConv T BaseType self._low (BaseType.promote.wrap (-numMax)) then
        BaseType.wrap (BaseType.promote.wrap (-numMax))
      else low
    else
      if IntType.leConv T BaseType self._low numMin then
        if isUnsigned then numMin
        else BaseType.wrap (BaseType.promote.wrap (numMin + 1))
      else low
  let high := if IntType.leConv T BaseType numMax self._high then numMax else high
  ⟨low, high⟩

end Range

/-- A query term whose range result is the same for every type: the given bounds, parsed
successfully and not adjusted. -/
def termWithRange (low high : Int) : QueryTermSimple :=
  { getRange := fun _ => ⟨low, high, true, false⟩
    getRangeLimit := 0
    getMaxPerGroup := 0 }

end NumericAttribute

end search

/-! ## The file size tag check -/

namespace search.FileSizeCalculator

open vespalib

/-- Without the tag the call succeeds and leaves the size alone. -/
theorem extractFileSize_of_no_tag (header : GenericHeader) (h : Nat) (fileName : String)
    (f : Nat) (hno : header.hasTag fileBitSizeTag = false) :
    extractFileSize header h fileName f = (true, f) := by
  simp [extractFileSize, hno]

/-- With the tag present the call is decided by the three comparisons of the code. -/
theorem extractFileSize_of_tag (header : GenericHeader) (h : Nat) (fileName : String)
    (f : Nat) (htag : header.hasTag fileBitSizeTag = true) :
    extractFileSize header h fileName f =
      if fileBitSizeOf header % 8 = 0 ∧ h ≤ fileBitSizeOf header / 8 ∧
          fileBitSizeOf header / 8 ≤ f then
        (true, fileBitSizeOf header / 8)
      else (false, f) := by
  simp only [extractFileSize, htag, fileBitSizeOf, byteAligned]
  by_cases h8 : toUInt64 (header.getTag fileBitSizeTag).asInteger % 8 = 0
  · by_cases hh : toUInt64 (header.getTag fileBitSizeTag).asInteger / 8 < h
    · have : ¬ h ≤ toUInt64 (header.getTag fileBitSizeTag).asInteger / 8 := by omega
      simp [h8, hh, this]
    · by_cases hf : toUInt64 (header.getTag fileBitSizeTag).asInteger / 8 > f
      · have : ¬ toUInt64 (header.getTag fileBitSizeTag).asInteger / 8 ≤ f := by omega
        simp [h8, hh, hf, this]
      · have h1 : h ≤ toUInt64 (header.getTag fileBitSizeTag).asInteger / 8 := by omega
        have h2 : toUInt64 (header.getTag fileBitSizeTag).asInteger / 8 ≤ f := by omega
        simp [h8, hh, hf, h1, h2]
  · simp [h8]

/-- The header of the scenarios stores the tag, with the payload as its bit size. -/
theorem headerWithBitSize_tag (bits : Int) :
    (headerWithBitSize bits).hasTag fileBitSizeTag = true ∧
      fileBitSizeOf (headerWithBitSize bits) = toUInt64 bits := by
  simp [headerWithBitSize, GenericHeader.hasTag, fileBitSizeOf, GenericHeader.getTag,
    Tag.asInteger]

/-- C1: `extractFileSize` returns true if and only if the header has no `fileBitSize` tag, or
the tag value `b` is a multiple of 8 with `h ≤ b / 8 ≤ f`. A header with `b = 80` passes for
`h = 8`, `f = 20`, and a header with `b = 81` fails for every `h` and `f`. -/
theorem extractFileSize_true_iff :
    (∀ (header : GenericHeader) (h : Nat) (fileName : String) (f : Nat),
      (extractFileSize header h fileName f).1 = true ↔
        (header.hasTag fileBitSizeTag = false ∨
          (fileBitSizeOf header % 8 = 0 ∧ fileBitSizeOf header / 8 ≥ h ∧
            fileBitSizeOf header / 8 ≤ f))) ∧
    (∀ (header : GenericHeader) (fileName : String),
      header.hasTag fileBitSizeTag = true → fileBitSizeOf header = 80 →
        (extractFileSize header 8 fileName 20).1 = true) ∧
    (∀ (header : GenericHeader) (h : Nat) (fileName : String) (f : Nat),
      header.hasTag fileBitSizeTag = true → fileBitSizeOf header = 81 →
        (extractFileSize header h fileName f).1 = false) := by
  refine ⟨?_, ?_, ?_⟩
  · intro header h fileName f
    cases htag : header.hasTag fileBitSizeTag with
    | false => simp [extractFileSize_of_no_tag header h fileName f htag]
    | true =>
      rw [extractFileSize_of_tag header h fileName f htag]
      by_cases hc : fileBitSizeOf header % 8 = 0 ∧ h ≤ fileBitSizeOf header / 8 ∧
          fileBitSizeOf header / 8 ≤ f
      · simp [hc]
      · simp only [if_neg hc]
        constructor
        · intro hfalse; cases hfalse
        · intro hor
          rcases hor with hor | hor
          · cases hor
          · exact absurd hor hc
  · intro header fileName htag hb
    rw [extractFileSize_of_tag header 8 fileName 20 htag, hb]
    decide
  · intro header h fileName f htag hb
    rw [extractFileSize_of_tag header h fileName f htag, hb]
    simp

/-- The scenarios of C1 on concrete headers: bit size 80 with an 8 byte header in a 20 byte file
passes, bit size 81 fails. -/
theorem extractFileSize_true_iff_witness :
    (extractFileSize (headerWithBitSize 80) 8 "attribute.dat" 20).1 = true ∧
      (extractFileSize (headerWithBitSize 81) 8 "attribute.dat" 20).1 = false :=
  ⟨extractFileSize_true_iff.2.1 (headerWithBitSize 80) "attribute.dat" (by decide) (by decide),
   extractFileSize_true_iff.2.2 (headerWithBitSize 81) 8 "attribute.dat" 20 (by decide)
     (by decide)⟩

/-- C8: the `fileSize` in/out parameter is `b / 8` after a successful check of a present tag
`b`, and keeps its input value `f` in every other case. -/
theorem extractFileSize_fileSize_out (header : GenericHeader) (h : Nat) (fileName : String)
    (f : Nat) :
    (extractFileSize header h fileName f).2 =
      if header.hasTag fileBitSizeTag = true ∧ (extractFileSize header h fileName f).1 = true
      then fileBitSizeOf header / 8 else f := by
  cases htag : header.hasTag fileBitSizeTag with
  | false => simp [extractFileSize_of_no_tag header h fileName f htag]
  | true =>
    rw [extractFileSize_of_tag header h fileName f htag]
    by_cases hc : fileBitSizeOf header % 8 = 0 ∧ h ≤ fileBitSizeOf header / 8 ∧
        fileBitSizeOf header / 8 ≤ f
    · simp [hc]
    · simp [if_neg hc]

/-- C9: with the tag present, a successful call reports a size between the header length and
the size of the file. -/
theorem extractFileSize_bounds (header : GenericHeader) (h : Nat) (fileName : String) (f : Nat)
    (htag : header.hasTag fileBitSizeTag = true)
    (hok : (extractFileSize header h fileName f).1 = true) :
    h ≤ (extractFileSize header h fileName f).2 ∧
      (extractFileSize header h fileName f).2 ≤ f := by
  rw [extractFileSize_of_tag header h fileName f htag] at hok ⊢
  by_cases hc : fileBitSizeOf header % 8 = 0 ∧ h ≤ fileBitSizeOf header / 8 ∧
      fileBitSizeOf header / 8 ≤ f
  · simp only [if_pos hc]
    exact ⟨hc.2.1, hc.2.2⟩
  · simp [if_neg hc] at hok

/-- An 80 bit file behind an 8 byte header in a 20 byte file: the reported 10 bytes lie between
8 and 20. -/
theorem extractFileSize_bounds_witness :
    (headerWithBitSize 80).hasTag fileBitSizeTag = true ∧
      (extractFileSize (headerWithBitSize 80) 8 "attribute.dat" 20).1 = true ∧
      8 ≤ (extractFileSize (headerWithBitSize 80) 8 "attribute.dat" 20).2 ∧
      (extractFileSize (headerWithBitSize 80) 8 "attribute.dat" 20).2 ≤ 20 :=
  ⟨by decide, by decide,
    extractFileSize_bounds (headerWithBitSize 80) 8 "attribute.dat" 20 (by decide) (by decide)⟩

/-- C10: a successful call is idempotent: calling again on the size it reported succeeds and
reports the same size. -/
theorem extractFileSize_idempotent (header : GenericHeader) (h : Nat) (fileName : String)
    (f : Nat) (hok : (extractFileSize header h fileName f).1 = true) :
    extractFileSize header h fileName (extractFileSize header h fileName f).2 =
      (true, (extractFileSize header h fileName f).2) := by
  cases htag : header.hasTag fileBitSizeTag with
  | false => simp [extractFileSize_of_no_tag header h fileName _ htag]
  | true =>
    rw [extractFileSize_of_tag header h fileName f htag] at hok ⊢
    by_cases hc : fileBitSizeOf header % 8 = 0 ∧ h ≤ fileBitSizeOf header / 8 ∧
        fileBitSizeOf header / 8 ≤ f
    · simp only [if_pos hc]
      rw [extractFileSize_of_tag header h fileName _ htag]
      simp [hc.1, hc.2.1]
    · simp [if_neg hc] at hok

/-- The 80 bit scenario run twice: the first call turns 20 into 10, the second keeps 10. -/
theorem extractFileSize_idempotent_witness :
    (extractFileSize (headerWithBitSize 80) 8 "attribute.dat" 20).1 = true ∧
      extractFileSize (headerWithBitSize 80) 8 "attribute.dat"
          (extractFileSize (headerWithBitSize 80) 8 "attribute.dat" 20).2 =
        (true, (extractFileSize (headerWithBitSize 80) 8 "attribute.dat" 20).2) :=
  ⟨by decide,
    extractFileSize_idempotent (headerWithBitSize 80) 8 "attribute.dat" 20 (by decide)⟩

end search.FileSizeCalculator

/-! ## The document sub-database test double -/

namespace proton.test

open DummyDocumentSubDb

/-- No call changes the object: every member function body of the test double is empty or
returns a constant. -/
theorem step_eq_self {C : Collaborators} (op : Op C) (self : DummyDocumentSubDb) :
    step op self = self := by
  cases op <;> rfl

/-- A sequence of calls leaves the object as it was. -/
theorem run_eq_self {C : Collaborators} (ops : List (Op C)) (self : DummyDocumentSubDb) :
    run ops self = self := by
  induction ops generalizing self with
  | nil => rfl
  | cons op ops ih => rw [run, step_eq_self, ih]

/-- C2: `applyConfig` with the same snapshot as new and old configuration returns an empty list
of reprocessing tasks, for every serial number and every `ReconfigParams`, and leaves the
sub-database as it was. -/
theorem applyConfig_same_snapshot (C : Collaborators) (self : DummyDocumentSubDb)
    (snapshotA : C.DocumentDBConfig) (serialNum : SerialNum) (params : C.ReconfigParams) :
    (applyConfig (C := C) snapshotA snapshotA serialNum params self).1 = [] ∧
      (applyConfig (C := C) snapshotA snapshotA serialNum params self).2 = self :=
  ⟨rfl, rfl⟩

/-- C3: after any sequence of calls that contains no `initViews`, `getFeedView()` and
`getSearchView()` both return the empty view. -/
theorem views_empty_before_initViews (C : Collaborators) (self : DummyDocumentSubDb)
    (ops : List (Op C)) (hno : ∀ op ∈ ops, op.isInitViews = false) :
    getFeedView (run ops self) = none ∧ getSearchView (run ops self) = none :=
  ⟨rfl, rfl⟩

/-- A freshly constructed sub-database that went through setup, a reconfiguration and the end
of replay, without `initViews`, has no views. -/
theorem views_empty_before_initViews_witness :
    (∀ op ∈ [Op.setup (C := unitCollaborators) (), Op.applyConfig () () 5 (), Op.onReplayDone],
        op.isInitViews = false) ∧
      getFeedView (run [Op.setup (C := unitCollaborators) (), Op.applyConfig () () 5 (),
        Op.onReplayDone] (DummyDocumentSubDb.new none 3)) = none ∧
      getSearchView (run [Op.setup (C := unitCollaborators) (), Op.applyConfig () () 5 (),
        Op.onReplayDone] (DummyDocumentSubDb.new none 3)) = none :=
  ⟨by simp [Op.isInitViews],
    views_empty_before_initViews unitCollaborators (DummyDocumentSubDb.new none 3)
      [Op.setup (C := unitCollaborators) (), Op.applyConfig () () 5 (), Op.onReplayDone]
      (by simp [Op.isInitViews])⟩

/-- C4 fails on the test double: after `initViews` on a freshly constructed sub-database,
neither `getFeedView()` nor `getSearchView()` returns a non-empty view. -/
theorem views_after_initViews_counterexample :
    ¬ ((getFeedView (initViews (C := unitCollaborators) () none
          (DummyDocumentSubDb.new none 0))).isSome = true ∧
       (getSearchView (initViews (C := unitCollaborators) () none
          (DummyDocumentSubDb.new none 0))).isSome = true) := by
  decide

/-- C4 as amended: `initViews` leaves the test double as it was, and after it `getFeedView()`
and `getSearchView()` each still return the empty view, so at most one feed view and at most
one search view is active. -/
theorem views_after_initViews (C : Collaborators) (self : DummyDocumentSubDb)
    (configSnapshot : C.DocumentDBConfig) (sessionManager : Option C.SessionManager) :
    initViews (C := C) configSnapshot sessionManager self = self ∧
      getFeedView (initViews (C := C) configSnapshot sessionManager self) = none ∧
      getSearchView (initViews (C := C) configSnapshot sessionManager self) = none :=
  ⟨rfl, rfl, rfl⟩

/-- C5: after construction with `subDbId` and any sequence of `setup`, `initViews`,
`applyConfig`, `clearViews`, `onReplayDone`, `onReprocessDone`, `wipeHistory`,
`setIndexSchema` and `close` calls, `getSubDbId()` returns `subDbId`. -/
theorem getSubDbId_immutable (C : Collaborators) (bucketDB : SP) (subDbId : Nat)
    (ops : List (Op C)) :
    getSubDbId (run ops (DummyDocumentSubDb.new bucketDB subDbId)) = subDbId := by
  rw [run_eq_self]
  rfl

end proton.test

namespace proton

open test test.DummyDocumentSubDb

/-- The running minimum never exceeds its starting value. -/
theorem foldl_min_le_init (ts : List IFlushTarget) (acc : SerialNum) :
    ts.foldl (fun a x => min a x.flushedSerialNum) acc ≤ acc := by
  induction ts generalizing acc with
  | nil => exact Nat.le_refl _
  | cons t ts ih =>
    simp only [List.foldl_cons]
    exact Nat.le_trans (ih _) (Nat.min_le_left _ _)

/-- The running minimum never exceeds the serial of a target it went over. -/
theorem foldl_min_le_of_mem (ts : List IFlushTarget) (acc : SerialNum) (t : IFlushTarget)
    (ht : t ∈ ts) : ts.foldl (fun a x => min a x.flushedSerialNum) acc ≤ t.flushedSerialNum := by
  induction ts generalizing acc with
  | nil => cases ht
  | cons u us ih =>
    simp only [List.foldl_cons]
    rcases List.mem_cons.mp ht with h | h
    · subst h
      exact Nat.le_trans (foldl_min_le_init _ _) (Nat.min_le_right _ _)
    · exact ih _ h

/-- The running minimum is its starting value or the serial of a target it went over. -/
theorem foldl_min_attained (ts : List IFlushTarget) (acc : SerialNum) :
    ts.foldl (fun a x => min a x.flushedSerialNum) acc = acc ∨
      ∃ t ∈ ts, ts.foldl (fun a x => min a x.flushedSerialNum) acc = t.flushedSerialNum := by
  induction ts generalizing acc with
  | nil => exact Or.inl rfl
  | cons u us ih =>
    simp only [List.foldl_cons]
    rcases ih (min acc u.flushedSerialNum) with h | ⟨t, htm, ht⟩
    · rcases Nat.le_total acc u.flushedSerialNum with hle | hle
      · left
        rw [h, Nat.min_eq_left hle]
      · right
        exact ⟨u, List.mem_cons_self _ _, by rw [h, Nat.min_eq_right hle]⟩
    · right
      exact ⟨t, List.mem_cons_of_mem _ htm, ht⟩

/-- C6: `getOldestFlushedSerial()` is the minimum of the flushed serials of the targets in
`getFlushTargets()`: in every state of the test double it is the aggregate of the target list,
at most the serial of each target and, when there is a target, the serial of one of them; the
aggregate has these two properties on every target list, and targets reporting 10, 7 and 12
give 7. -/
theorem getOldestFlushedSerial_is_minimum :
    (∀ self : DummyDocumentSubDb,
      getOldestFlushedSerial self = oldestFlushedSerial (getFlushTargets self) ∧
      (∀ t ∈ getFlushTargets self, getOldestFlushedSerial self ≤ t.flushedSerialNum) ∧
      (getFlushTargets self ≠ [] →
        ∃ t ∈ getFlushTargets self, getOldestFlushedSerial self = t.flushedSerialNum)) ∧
    (∀ targets : List IFlushTarget,
      (∀ t ∈ targets, oldestFlushedSerial targets ≤ t.flushedSerialNum) ∧
      (targets ≠ [] → ∃ t ∈ targets, oldestFlushedSerial targets = t.flushedSerialNum)) ∧
    oldestFlushedSerial [⟨"index", 10⟩, ⟨"attribute", 7⟩, ⟨"summary", 12⟩] = 7 := by
  refine ⟨?_, ?_, by decide⟩
  · intro self
    refine ⟨rfl, ?_, ?_⟩
    · intro t ht
      cases ht
    · intro hne
      exact absurd rfl hne
  · intro targets
    cases targets with
    | nil =>
      exact ⟨fun t ht => (by cases ht), fun hne => absurd rfl hne⟩
    | cons u us =>
      refine ⟨?_, fun _ => ?_⟩
      · intro t ht
        rcases List.mem_cons.mp ht with h | h
        · subst h
          exact foldl_min_le_init _ _
        · exact foldl_min_le_of_mem _ _ _ h
      · rcases foldl_min_attained us u.flushedSerialNum with h | ⟨t, htm, ht⟩
        · exact ⟨u, List.mem_cons_self _ _, h⟩
        · exact ⟨t, List.mem_cons_of_mem _ htm, ht⟩

/-- The minimum over three targets, through C6: the aggregate of targets reporting 10, 7 and 12
is below each of them and is the serial of one of them. -/
theorem getOldestFlushedSerial_is_minimum_witness :
    ([⟨"index", 10⟩, ⟨"attribute", 7⟩, ⟨"summary", 12⟩] : List IFlushTarget) ≠ [] ∧
      ∃ t ∈ ([⟨"index", 10⟩, ⟨"attribute", 7⟩, ⟨"summary", 12⟩] : List IFlushTarget),
        oldestFlushedSerial [⟨"index", 10⟩, ⟨"attribute", 7⟩, ⟨"summary", 12⟩] =
          t.flushedSerialNum :=
  ⟨by decide,
    (getOldestFlushedSerial_is_minimum.2.1
      [⟨"index", 10⟩, ⟨"attribute", 7⟩, ⟨"summary", 12⟩]).2 (by decide)⟩

/-- C7: `wipeHistory` leaves the sub-database as it was, so `getOldestFlushedSerial()`,
`getNewestFlushedSerial()` and `getFlushTargets()` give the same values after the call as
before it; the call has no failing outcome. -/
theorem wipeHistory_keeps_flush_bounds (C : Collaborators) (self : DummyDocumentSubDb)
    (wipeSerial : SerialNum) (newHistorySchema wipeSchema : C.Schema) :
    wipeHistory (C := C) wipeSerial newHistorySchema wipeSchema self = self ∧
      getOldestFlushedSerial (wipeHistory (C := C) wipeSerial newHistorySchema wipeSchema self) =
        getOldestFlushedSerial self ∧
      getNewestFlushedSerial (wipeHistory (C := C) wipeSerial newHistorySchema wipeSchema self) =
        getNewestFlushedSerial self ∧
      getFlushTargets (wipeHistory (C := C) wipeSerial newHistorySchema wipeSchema self) =
        getFlushTargets self :=
  ⟨rfl, rfl, rfl, rfl⟩

end proton

/-! ## Numeric attribute search helpers -/

namespace search.IntType

/-- Every type has at least two values. -/
theorem numMin_lt_numMax (T : IntType) : T.numMin + 1 ≤ T.numMax := by
  cases T <;> decide

/-- Converting a value of the type to the type keeps it. -/
theorem wrap_of_inRange (T : IntType) (x : Int) (h : T.inRange x) : T.wrap x = x := by
  obtain ⟨h1, h2⟩ := h
  unfold wrap
  rw [Int.emod_eq_of_lt (by omega) (by omega)]
  omega

/-- Promotion keeps every value of the type. -/
theorem inRange_promote (T : IntType) (x : Int) (h : T.inRange x) : T.promote.inRange x := by
  cases T <;> simp only [inRange, promote, numMin, numMax] at h ⊢ <;> omega

/-- The common type of a type with itself is its promotion. -/
theorem common_self (T : IntType) : common T T = T.promote := by
  cases T <;> rfl

/-- Between two values of one type, the comparison of C++ is the comparison of the integers. -/
theorem leConv_self (T : IntType) (a b : Int) (ha : T.inRange a) (hb : T.inRange b) :
    leConv T T a b = decide (a ≤ b) := by
  unfold leConv
  rw [common_self, wrap_of_inRange _ a (inRange_promote T a ha),
    wrap_of_inRange _ b (inRange_promote T b hb)]

/-- The two limits of a type are values of it. -/
theorem inRange_limits (T : IntType) :
    T.inRange T.numMin ∧ T.inRange T.numMax ∧ T.inRange (T.numMin + 1) := by
  cases T <;> decide

end search.IntType

namespace search.NumericAttribute

open IntType

/-- The validity flag of a range does not depend on `avoidUndefinedInRange`. -/
theorem range_isValid_new (T : IntType) (queryTerm : QueryTermSimple) (avoid : Bool) :
    (Range.new T queryTerm avoid).isValid =
      if (queryTerm.getRange T).isEqual then
        ((queryTerm.getRange T).valid && !(queryTerm.getRange T).adjusted)
      else (queryTerm.getRange T).valid := by
  unfold Range.new Range.isValid
  dsimp only
  split <;> (split <;> rfl)

/-- Without `avoidUndefinedInRange` the bounds of a range are those of the range result. -/
theorem range_bounds_new_false (T : IntType) (queryTerm : QueryTermSimple) :
    (Range.new T queryTerm false)._low = (queryTerm.getRange T).low ∧
      (Range.new T queryTerm false)._high = (queryTerm.getRange T).high := by
  unfold Range.new
  simp

/-- C11: a valid `Range<T>` constructed with `avoidUndefinedInRange = true` matches `v` if and
only if `v` is not `numeric_limits<T>::min()` and `res.low <= v <= res.high`, where `res` is
the range result of the query term (its lower bound being a value of `T`). -/
theorem range_match_avoidUndefined (T : IntType) (queryTerm : QueryTermSimple)
    (hlow : T.inRange (queryTerm.getRange T).low)
    (hvalid : (Range.new T queryTerm true).isValid = true) (v : Int) :
    (Range.new T queryTerm true).«match» v = true ↔
      (v ≠ T.numMin ∧ (queryTerm.getRange T).low ≤ v ∧ v ≤ (queryTerm.getRange T).high) := by
  rw [range_isValid_new] at hvalid
  have hmin := numMin_lt_numMax T
  obtain ⟨hl1, hl2⟩ := hlow
  unfold Range.new Range.«match»
  dsimp only
  rw [hvalid]
  by_cases hc : (queryTerm.getRange T).low = T.numMin
  · have hw : T.wrap ((queryTerm.getRange T).low + 1) = T.numMin + 1 := by
      rw [hc]
      exact wrap_of_inRange T _ (inRange_limits T).2.2
    simp only [hc, decide_True, Bool.and_self, if_true, Bool.and_eq_true, decide_eq_true_eq]
    rw [hc] at hw
    rw [hw]
    constructor
    · rintro ⟨h1, h2⟩
      exact ⟨by omega, by omega, h2⟩
    · rintro ⟨h1, h2, h3⟩
      exact ⟨by omega, h3⟩
  · simp only [hc, decide_False, Bool.and_false, Bool.false_eq_true, if_false, Bool.and_eq_true,
      decide_eq_true_eq]
    constructor
    · rintro ⟨h1, h2⟩
      exact ⟨by omega, h1, h2⟩
    · rintro ⟨_, h2, h3⟩
      exact ⟨h2, h3⟩

/-- The undefined value of `int8_t` is asked for and not matched: the range result is
`[-128, 5]`, the range is valid, and -128 is matched exactly if it is not `min` and lies in
`[-128, 5]`. -/
theorem range_match_avoidUndefined_witness :
    int8_t.inRange ((termWithRange (-128) 5).getRange int8_t).low ∧
      (Range.new int8_t (termWithRange (-128) 5) true).isValid = true ∧
      ((Range.new int8_t (termWithRange (-128) 5) true).«match» (-128) = true ↔
        ((-128 : Int) ≠ int8_t.numMin ∧ ((termWithRange (-128) 5).getRange int8_t).low ≤ -128 ∧
          (-128 : Int) ≤ ((termWithRange (-128) 5).getRange int8_t).high)) :=
  ⟨by decide, by decide,
    range_match_avoidUndefined int8_t (termWithRange (-128) 5) (by decide) (by decide) (-128)⟩

/-- With `T = BaseType` and `isFloat = false`, the capped bounds before the case analysis. -/
theorem cappedRange_same_type (T : IntType) (self : Range) (isUnsigned : Bool)
    (hlow : T.inRange self._low) (hhigh : T.inRange self._high) :
    Range.cappedRange T T self false isUnsigned =
      ⟨if self._low ≤ T.numMin then (if isUnsigned then T.numMin else T.numMin + 1)
        else self._low,
       if T.numMax ≤ self._high then T.numMax else self._high⟩ := by
  have hlim := inRange_limits T
  unfold Range.cappedRange
  simp only [Bool.false_eq_true, if_false, leConv_self T _ _ hlow hlim.1,
    leConv_self T _ _ hlim.2.1 hhigh, wrap_of_inRange T _ hlow, wrap_of_inRange T _ hhigh,
    wrap_of_inRange _ _ (inRange_promote T _ hlim.2.2), wrap_of_inRange T _ hlim.2.2,
    decide_eq_true_eq]

/-- C12: `cappedRange<BaseType>(false, false)` with `T = BaseType`, `_low` and `_high` being
values of the type, is the range `(max(_low, min + 1), _high)` where `min` is
`numeric_limits<BaseType>::min()`; its lower bound is not `min`, and a value `v` other than
`min` lies between its bounds if and only if `match(v)`. Proved for every integer type of the
model, the signed ones in particular. -/
theorem cappedRange_avoids_min (T : IntType) (self : Range)
    (hlow : T.inRange self._low) (hhigh : T.inRange self._high) :
    Range.cappedRange T T self false false = ⟨max self._low (T.numMin + 1), self._high⟩ ∧
      (Range.cappedRange T T self false false).lower ≠ T.numMin ∧
      ∀ v : Int, v ≠ T.numMin →
        (((Range.cappedRange T T self false false).lower ≤ v ∧
            v ≤ (Range.cappedRange T T self false false).upper) ↔
          self.«match» v = true) := by
  obtain ⟨hl1, hl2⟩ := hlow
  obtain ⟨hh1, hh2⟩ := hhigh
  have heq : Range.cappedRange T T self false false =
      ⟨max self._low (T.numMin + 1), self._high⟩ := by
    rw [cappedRange_same_type T self false ⟨hl1, hl2⟩ ⟨hh1, hh2⟩]
    have h1 : (if self._low ≤ T.numMin then (if false = true then T.numMin else T.numMin + 1)
        else self._low) = max self._low (T.numMin + 1) := by
      by_cases hc : self._low ≤ T.numMin
      · simp only [if_pos hc, Bool.false_eq_true, if_false]
        omega
      · simp only [if_neg hc]
        omega
    have h2 : (if T.numMax ≤ self._high then T.numMax else self._high) = self._high := by
      by_cases hc : T.numMax ≤ self._high
      · simp only [if_pos hc]
        omega
      · simp only [if_neg hc]
    rw [h1, h2]
  rw [heq]
  refine ⟨rfl, ?_, ?_⟩
  · show max self._low (T.numMin + 1) ≠ T.numMin
    omega
  · intro v hv
    show (max self._low (T.numMin + 1) ≤ v ∧ v ≤ self._high) ↔ self.«match» v = true
    unfold Range.«match»
    simp only [Bool.and_eq_true, decide_eq_true_eq]
    constructor
    · rintro ⟨h1, h2⟩
      exact ⟨by omega, h2⟩
    · rintro ⟨h1, h2⟩
      exact ⟨by omega, h2⟩

/-- The whole of `int64_t` asked for: the capped range starts one above the undefined value. -/
theorem cappedRange_avoids_min_witness :
    int64_t.inRange
        (Range.new int64_t (termWithRange (-9223372036854775808) 100) false)._low ∧
      int64_t.inRange
        (Range.new int64_t (termWithRange (-9223372036854775808) 100) false)._high ∧
      Range.cappedRange int64_t int64_t
          (Range.new int64_t (termWithRange (-9223372036854775808) 100) false) false false =
        ⟨max (Range.new int64_t (termWithRange (-9223372036854775808) 100) false)._low
            (int64_t.numMin + 1),
          (Range.new int64_t (termWithRange (-9223372036854775808) 100) false)._high⟩ :=
  ⟨by decide, by decide,
    (cappedRange_avoids_min int64_t
      (Range.new int64_t (termWithRange (-9223372036854775808) 100) false)
      (by decide) (by decide)).1⟩

/-- C13: `Equal<T>` and `Range<T>` built from one query term, the range without
`avoidUndefinedInRange`, agree: `Equal::isValid()` holds if and only if `Range::isValid()`
holds and `res.isEqual()`; and when `Equal::isValid()` holds, `Equal::match(v)` equals
`Range::match(v)` for every `v`. -/
theorem equal_agrees_with_range (T : IntType) (queryTerm : QueryTermSimple) (avoid : Bool) :
    ((Equal.new T queryTerm avoid).isValid = true ↔
      ((Range.new T queryTerm false).isValid = true ∧
        (queryTerm.getRange T).isEqual = true)) ∧
    ((Equal.new T queryTerm avoid).isValid = true →
      ∀ v : Int, (Equal.new T queryTerm avoid).«match» v =
        (Range.new T queryTerm false).«match» v) := by
  have hE : (Equal.new T queryTerm avoid).isValid =
      ((queryTerm.getRange T).valid && (queryTerm.getRange T).isEqual &&
        !(queryTerm.getRange T).adjusted) := rfl
  have hV : (Equal.new T queryTerm avoid)._value = (queryTerm.getRange T).high := rfl
  obtain ⟨hlo, hhi⟩ := range_bounds_new_false T queryTerm
  constructor
  · rw [hE, range_isValid_new]
    cases (queryTerm.getRange T).isEqual <;> cases (queryTerm.getRange T).valid <;>
      cases (queryTerm.getRange T).adjusted <;> decide
  · intro hvalid v
    rw [hE] at hvalid
    have heq : (queryTerm.getRange T).low = (queryTerm.getRange T).high := by
      have : (queryTerm.getRange T).isEqual = true := by
        revert hvalid
        cases (queryTerm.getRange T).isEqual <;> cases (queryTerm.getRange T).valid <;>
          cases (queryTerm.getRange T).adjusted <;> decide
      simpa [RangeResult.isEqual] using this
    unfold Equal.«match» Range.«match»
    rw [hV, hlo, hhi, heq]
    by_cases hv : v = (queryTerm.getRange T).high
    · simp [hv]
    · have : ¬ ((queryTerm.getRange T).high ≤ v ∧ v ≤ (queryTerm.getRange T).high) := by
        omega
      simp only [hv, decide_False]
      symm
      simpa using this

/-- The term `7` on `int32_t`: both are valid, and both match 7 and reject 8. -/
theorem equal_agrees_with_range_witness :
    (Equal.new int32_t (termWithRange 7 7) false).isValid = true ∧
      (Range.new int32_t (termWithRange 7 7) false).isValid = true ∧
      (Equal.new int32_t (termWithRange 7 7) false).«match» 8 =
        (Range.new int32_t (termWithRange 7 7) false).«match» 8 :=
  ⟨by decide, by decide,
    (equal_agrees_with_range int32_t (termWithRange 7 7) false).2 (by decide) 8⟩

end search.NumericAttribute
